import Mathlib

/-!
Verification of the feed/report validation and composition layer of
`cbapi/psc/threathunter/models.py` (the `Feed`, `Report`, `IOC` and `IOC_v2`
model classes), shallowly embedded in Lean.

Python values that can appear in a model's attribute mapping (`_info`) are
embedded as `Value`; attribute mappings (Python `dict`s with string keys,
insertion-ordered, duplicate-free) are embedded as association lists `Info`
iterated in order.  Raised exceptions (`cbapi.errors.ApiError`, Python
`KeyError` / `TypeError` / `AttributeError`) become an `Except PyErr`
result; network collaborators (`post_object`, `put_object`, `get_object`)
are passed in as function parameters and each operation additionally
returns the number of times it invoked its collaborator.
-/

/-- A Python value as it can occur in an attribute mapping: JSON scalars,
lists, dicts, Python `None`, plus instances of the module's `IOC` and
`IOC_v2` classes (which `Report`'s `iocs` / `iocs_v2` predicates test with
`isinstance`; neither class has subclasses in this module). -/
inductive Value where
  | str (s : String)
  | int (n : Int)
  | bool (b : Bool)
  | list (xs : List Value)
  | dict (kvs : List (String × Value))
  | none
  | ioc (info : List (String × Value))
  | iocV2 (info : List (String × Value))

/-- An attribute mapping (`self._info`): an insertion-ordered Python dict
with string keys. -/
abbrev Info : Type := List (String × Value)

/-- Python dict membership test `key in d` (first binding wins; real dicts
have no duplicate keys). -/
def Info.hasKey (d : Info) (k : String) : Bool :=
  match d with
  | [] => false
  | (k', _) :: rest => if k' = k then true else Info.hasKey rest k

/-- Python dict lookup `d[key]` / `d.get(key)`, first binding wins. -/
def Info.lookup (d : Info) (k : String) : Option Value :=
  match d with
  | [] => Option.none
  | (k', v) :: rest => if k' = k then some v else Info.lookup rest k

/-- Python `dict.update(other)`: existing keys are overwritten in place,
keys new to the dict are appended in `other`'s order. -/
def Info.update (base upd : Info) : Info :=
  (base.map (fun kv => (kv.1, (Info.lookup upd kv.1).getD kv.2)))
    ++ upd.filter (fun kv => !(Info.hasKey base kv.1))

/-- Python truthiness of a `Value` (`if x:`). -/
def Value.truthy : Value → Bool
  | .str s => !s.isEmpty
  | .int n => n != 0
  | .bool b => b
  | .list xs => !xs.isEmpty
  | .dict kvs => !kvs.isEmpty
  | .none => false
  | .ioc _ => true
  | .iocV2 _ => true

/-- Python truthiness of an optional argument (`if initial_data:` where the
parameter defaults to `None`). -/
def optTruthy : Option Value → Bool
  | Option.none => false
  | some v => v.truthy

/-- The exceptions this layer can raise: `cbapi.errors.ApiError(msg)` and
the builtin Python errors that the sloppy paths hit. -/
inductive PyErr where
  | apiError (msg : String)
  | keyError (k : String)
  | typeError (msg : String)
  | attributeError (msg : String)
deriving DecidableEq

/-- One entry of a `validation_map`: the source stores per-field dicts
`{"required": bool, "func": predicate}` where the `required` key defaults
to `True` (`validation.get("required", True)`). -/
structure Rule where
  required : Bool := true
  func : Value → Bool

/-- A `validation_map`: an insertion-ordered dict from field name to rule
(embedded as an association list iterated in declaration order). -/
abbrev Schema : Type := List (String × Rule)

/-- Membership test `key not in self.validation_map`. -/
def Schema.hasKey (s : Schema) (k : String) : Bool :=
  match s with
  | [] => false
  | (k', _) :: rest => if k' = k then true else Schema.hasKey rest k

/-- First loop of `Feed._validate` / `Report._validate` (models.py 250-252,
349-351): `for key, value in self._info.items(): if key not in
self.validation_map: raise ApiError("unexpected field: " + key)`. -/
def checkUnknown (s : Schema) : Info → Except PyErr Unit
  | [] => .ok ()
  | (k, _) :: rest =>
      if Schema.hasKey s k then checkUnknown s rest
      else .error (.apiError ("unexpected field: " ++ k))

/-- Second loop of `Feed._validate` / `Report._validate` (models.py 254-258,
353-357): for each `(key, validation)` of the `validation_map` in
declaration order, first `if key not in self._info and
validation.get("required", True): raise ApiError("required field missing:
" + key)`, then `if key in self._info and not
validation["func"](self._info[key]): raise ApiError("invalid field: " +
key)`. -/
def checkRules (info : Info) : Schema → Except PyErr Unit
  | [] => .ok ()
  | (k, r) :: rest =>
      if !(Info.hasKey info k) && r.required then
        .error (.apiError ("required field missing: " ++ k))
      else
        match Info.lookup info k with
        | some v =>
            if !(r.func v) then .error (.apiError ("invalid field: " ++ k))
            else checkRules info rest
        | Option.none => checkRules info rest

/-- The shared field-validation routine of `Feed._validate` (models.py
249-258) and `Report._validate` (models.py 348-357): the unknown-field
loop over the attribute mapping runs to completion, then the schema loop
runs the required/predicate checks. -/
def validateFields (s : Schema) (info : Info) : Except PyErr Unit :=
  match checkUnknown s info with
  | .error e => .error e
  | .ok () => checkRules info s

/-- Embeds `lambda x: type(x) == str` (note: a Python `bool` is not of type
`str`, and `type(x) == str` is false for every non-string). -/
def isStr : Value → Bool
  | .str _ => true
  | _ => false

/-- Embeds `lambda x: type(x) == int` (Python `type(True) == int` is false, so
the embedded `bool` constructor does not count). -/
def isInt : Value → Bool
  | .int _ => true
  | _ => false

/-- Embeds `lambda x: type(x) == str and x in ["public", "private"]` (used by
`Feed`'s `access` rule and `Report`'s `visibility` rule). -/
def isAccess : Value → Bool
  | .str s => s = "public" || s = "private"
  | _ => false

/-- Embeds `lambda xs: type(xs) == list and all(type(x) == str for x in xs)`. -/
def isStrList : Value → Bool
  | .list xs => xs.all isStr
  | _ => false

/-- Embeds `isinstance(x, IOC)` (the `IOC` class has no subclasses in this
module). -/
def isIOCInst : Value → Bool
  | .ioc _ => true
  | _ => false

/-- Embeds `isinstance(x, IOC_v2)` (`IOC_v2` has no subclasses in this module). -/
def isIOCv2Inst : Value → Bool
  | .iocV2 _ => true
  | _ => false

/-- Embeds `lambda xs: type(xs) == list and all(isinstance(x, IOC) for x in xs)`
(`Report.validation_map["iocs"]["func"]`, models.py 325). -/
def iocsFunc : Value → Bool
  | .list xs => xs.all isIOCInst
  | _ => false

/-- Embeds `lambda xs: type(xs) == list and all(isinstance(x, IOC_v2) for x in
xs)` (`Report.validation_map["iocs_v2"]["func"]`, models.py 329). -/
def iocsV2Func : Value → Bool
  | .list xs => xs.all isIOCv2Inst
  | _ => false

/-- Embeds `Feed.validation_map` (models.py 185-208), in declaration order.
`validators.url` is a third-party predicate (the `validators` package, not
part of this repository), so it is passed in abstractly as `urlPred`. -/
def feedValidationMap (urlPred : Value → Bool) : Schema :=
  [ ("name", { func := isStr }),
    ("owner", { func := isStr }),
    ("provider_url", { func := urlPred }),
    ("summary", { func := isStr }),
    ("category", { func := isStr }),
    ("access", { func := isAccess }),
    ("id", { required := false, func := isStr }) ]

/-- Embeds `Report.validation_map` (models.py 298-335), in declaration order;
`validators.url` for the `link` rule is the abstract `urlPred`. -/
def reportValidationMap (urlPred : Value → Bool) : Schema :=
  [ ("id", { required := false, func := isStr }),
    ("timestamp", { func := isInt }),
    ("title", { func := isStr }),
    ("description", { func := isStr }),
    ("severity", { func := isInt }),
    ("link", { required := false, func := urlPred }),
    ("tags", { required := false, func := isStrList }),
    ("iocs", { required := false, func := iocsFunc }),
    ("iocs_v2", { required := false, func := iocsV2Func }),
    ("visibility", { required := false, func := isAccess }) ]

/-- Modelled from the spec: `NewBaseModel.__init__` lives in
`cbapi/models.py`, which is not among the provided sources.  Per the spec,
a Resource Model is `{schema, attributes, identity}`: the base constructor
stores the caller-supplied `model_unique_id` as the model's identity and
wraps the supplied attribute mapping (`self._info = initial_data`,
defaulting to an empty mapping). -/
def newBaseModelInit (modelUniqueId : Option Value) (initialData : Option Info) :
    Option Value × Info :=
  (modelUniqueId, initialData.getD [])

/-- A `Report` instance: its identity (`_model_unique_id`) and attribute
mapping (`_info`).  The constructor's trailing cache assignments
(`self._iocs = self.iocs; self._iocs_v2 = self._iocs_v2`, models.py
345-346) write internal slots that nothing in this layer reads; their
lookup semantics live in the non-source base class, so they are not part
of the modelled state. -/
structure Report where
  identity : Option Value
  info : Info

/-- Embeds `Report.__init__` (models.py 341-346): it passes
`model_unique_id=initial_data["id"]` to the base constructor, so the
subscript is evaluated first — a `TypeError` when `initial_data` is `None`
or any other non-dict, a `KeyError` when the dict has no `"id"` key.  The
caller's `model_unique_id` argument is discarded. -/
def reportInit (initialData : Option Value) : Except PyErr Report :=
  match initialData with
  | Option.none => .error (.typeError "NoneType object is not subscriptable")
  | some (.dict d) =>
      match Info.lookup d "id" with
      | Option.none => .error (.keyError "id")
      | some idv =>
          let base := newBaseModelInit (some idv) (some d)
          .ok { identity := base.1, info := base.2 }
  | some _ => .error (.typeError "object is not subscriptable")

/-- Embeds `Report._validate` (models.py 348-357): the shared field-validation
routine over `Report.validation_map`. -/
def reportValidate (urlPred : Value → Bool) (r : Report) : Except PyErr Unit :=
  validateFields (reportValidationMap urlPred) r.info

/-- Embeds `Report.delete` (models.py 359-364) paired with the number of network
calls it issues.  `if not self.id: raise ApiError("missing Report ID")`;
the deletion request itself is commented out in the source (`TODO(ww):
Problem: Report deletion requires the feed ID.`), so on a truthy id the
method returns silently and never touches the network.  The `self.id`
attribute read is modelled from the spec as the model's identity. -/
def reportDelete (r : Report) : Except PyErr Unit × Nat :=
  if !(optTruthy r.identity) then (.error (.apiError "missing Report ID"), 0)
  else (.ok (), 0)

/-- A `Feed` instance: identity, attribute mapping, and its owned child
`Report`s (`self._reports`). -/
structure Feed where
  identity : Option Value
  info : Info
  reports : List Report

/-- Helper: `initial_data["feedinfo"]` is later used as a dict (`item.get("id")`,
models.py 232): a non-dict value fails there with an `AttributeError`. -/
def asDict : Value → Except PyErr Info
  | .dict d => .ok d
  | _ => .error (.attributeError "object has no attribute 'get'")

/-- The `reports` collection is iterated by the list comprehension at
models.py 235: a non-list value fails with a `TypeError`. -/
def asList : Value → Except PyErr (List Value)
  | .list xs => .ok xs
  | _ => .error (.typeError "object is not iterable")

/-- Embeds `[Report(cb, initial_data=report) for report in reports]`
(models.py 235): builds the children in order, propagating the first
constructor failure. -/
def buildReports : List Value → Except PyErr (List Report)
  | [] => .ok []
  | v :: rest =>
      match reportInit (some v) with
      | .error e => .error e
      | .ok r =>
          match buildReports rest with
          | .error e => .error e
          | .ok rs => .ok (r :: rs)

/-- Embeds `Feed.__init__` (models.py 214-235).  `getObject` is the external
`cb.get_object` collaborator used by the identity-lookup branch.  Branch
structure follows the source exactly: `if initial_data:` (Python
truthiness, so an empty dict falls through) unwraps the
`{"feedinfo": ..., "reports": ...}` envelope when the `"feedinfo"` key is
present and otherwise takes the whole document; `elif model_unique_id:`
fetches and unwraps the response; then the base constructor receives
`model_unique_id=item.get("id", None)` — the caller's `model_unique_id`
argument is never stored — and the children are built from the report
documents. -/
def feedInit (getObject : Value → Info) (modelUniqueId : Option Value)
    (initialData : Option Info) : Except PyErr Feed :=
  let unwrapped : Except PyErr (Info × List Value) :=
    if optTruthy (initialData.map Value.dict) then
      let d := initialData.getD []
      match Info.lookup d "feedinfo" with
      | some fi =>
          match asDict fi with
          | .error e => .error e
          | .ok item =>
              match asList ((Info.lookup d "reports").getD (.list [])) with
              | .error e => .error e
              | .ok rs => .ok (item, rs)
      | Option.none => .ok (d, [])
    else if optTruthy modelUniqueId then
      let resp := getObject (modelUniqueId.getD .none)
      match asDict ((Info.lookup resp "feedinfo").getD (.dict [])) with
      | .error e => .error e
      | .ok item =>
          match asList ((Info.lookup resp "reports").getD (.list [])) with
          | .error e => .error e
          | .ok rs => .ok (item, rs)
    else .ok ([], [])
  match unwrapped with
  | .error e => .error e
  | .ok (item, reportDocs) =>
      let base := newBaseModelInit (Info.lookup item "id") (some item)
      match buildReports reportDocs with
      | .error e => .error e
      | .ok reps => .ok { identity := base.1, info := base.2, reports := reps }

/-- The child-validation loop of `Feed._validate` (models.py 260-261):
`for report in self._reports: report._validate()`, short-circuiting at the
first raised error. -/
def validateReportList (urlPred : Value → Bool) : List Report → Except PyErr Unit
  | [] => .ok ()
  | r :: rest =>
      match reportValidate urlPred r with
      | .error e => .error e
      | .ok () => validateReportList urlPred rest

/-- Embeds `Feed._validate` (models.py 249-261): field validation of the feed's
own attributes against `Feed.validation_map`, then each child report in
sequence. -/
def feedValidate (urlPred : Value → Bool) (f : Feed) : Except PyErr Unit :=
  match validateFields (feedValidationMap urlPred) f.info with
  | .error e => .error e
  | .ok () => validateReportList urlPred f.reports

/-- The composite creation body (models.py 240-243):
`{"feedinfo": self._info, "reports": [report._info for report in
self._reports]}`. -/
structure FeedBody where
  feedinfo : Info
  reports : List Info

/-- Embeds `Feed._create` (models.py 237-247) paired with the number of
`post_object` network calls issued: validate (raising before any network
effect), then post the composite body and merge the response into the
attribute mapping. -/
def feedCreate (urlPred : Value → Bool) (postObject : FeedBody → Info)
    (f : Feed) : Except PyErr Feed × Nat :=
  match feedValidate urlPred f with
  | .error e => (.error e, 0)
  | .ok () =>
      let body : FeedBody := ⟨f.info, f.reports.map Report.info⟩
      let newInfo := postObject body
      (.ok { f with info := Info.update f.info newInfo }, 1)

/-- First key of `kwargs` (in iteration order) that is absent from the
attribute mapping — the key at which the loop at models.py 275-277
raises. -/
def firstUnknownKey (info : Info) : Info → Option String
  | [] => Option.none
  | (k, _) :: rest =>
      if Info.hasKey info k then firstUnknownKey info rest else some k

/-- Embeds `Feed.update` (models.py 271-281), returning the raised-or-ok outcome,
the feed state afterwards, and the number of `put_object` network calls:
`if not self.id: raise ApiError("missing feed ID")` (the `self.id`
attribute read is modelled from the spec as the model's identity); then,
for each key of `kwargs`, `if key not in self._info: raise
ApiError("can't update nonexistent field " + key)`; only then is the
network called and the response merged in. -/
def feedUpdate (putObject : Info → Info) (f : Feed) (kwargs : Info) :
    Except PyErr Unit × Feed × Nat :=
  if !(optTruthy f.identity) then (.error (.apiError "missing feed ID"), f, 0)
  else
    match firstUnknownKey f.info kwargs with
    | some k => (.error (.apiError ("can't update nonexistent field " ++ k)), f, 0)
    | Option.none =>
        let newInfo := putObject kwargs
        (.ok (), { f with info := Info.update f.info newInfo }, 1)

/-- An `IOC` instance as the class would represent it — no value of it is
ever produced, because the constructor always raises. -/
structure IOCObj where
  info : Info

/-- Embeds `IOC.__init__` (models.py 375-380): `if not initial_data: raise
ApiError(...)`; otherwise it calls `super(Report, self).__init__` with a
`self` that is an `IOC`, not a `Report`, and `super(Report, self)` raises
`TypeError` before any argument is evaluated. -/
def iocInit (initialData : Option Value) : Except PyErr IOCObj :=
  if !(optTruthy initialData) then
    .error (.apiError "IOC can only be initialized from initial_data")
  else
    .error (.typeError "super(type, obj): obj must be an instance or subtype of type")

/-- Embeds `IOC_v2.__init__` (models.py 390-395): same shape as `IOC.__init__`;
the `super(Report, self)` callable is evaluated before the
`initial_data["id"]` argument, so the `TypeError` fires on every truthy
`initial_data`. -/
def iocV2Init (initialData : Option Value) : Except PyErr IOCObj :=
  if !(optTruthy initialData) then
    .error (.apiError "IOC can only be initialized from initial_data")
  else
    .error (.typeError "super(type, obj): obj must be an instance or subtype of type")

/-! ## Characterization of the field validator -/

theorem hasKey_eq_isSome (info : Info) (k : String) :
    Info.hasKey info k = (Info.lookup info k).isSome := by
  induction info with
  | nil => rfl
  | cons p rest ih =>
      obtain ⟨k', v⟩ := p
      simp only [Info.hasKey, Info.lookup]
      split <;> simp [ih]

theorem checkUnknown_ok_iff (s : Schema) (info : Info) :
    checkUnknown s info = .ok () ↔ ∀ p ∈ info, Schema.hasKey s p.1 = true := by
  induction info with
  | nil => simp [checkUnknown]
  | cons p rest ih =>
      obtain ⟨k, v⟩ := p
      simp only [checkUnknown]
      split
      · next h => simp [ih, h]
      · next h => simp [h]

theorem checkRules_ok_iff (info : Info) (s : Schema) :
    checkRules info s = .ok () ↔
      ∀ p ∈ s, (p.2.required = true → Info.hasKey info p.1 = true) ∧
        (∀ v, Info.lookup info p.1 = some v → p.2.func v = true) := by
  induction s with
  | nil => simp [checkRules]
  | cons p rest ih =>
      obtain ⟨k, r⟩ := p
      rw [List.forall_mem_cons, ← ih]
      rcases hl : Info.lookup info k with _ | v
      · have hk : Info.hasKey info k = false := by
          rw [hasKey_eq_isSome, hl]; rfl
        by_cases hr : r.required = true
        · simp [checkRules, hk, hr, hl]
        · simp [checkRules, hk, hr, hl]
      · have hk : Info.hasKey info k = true := by
          rw [hasKey_eq_isSome, hl]; rfl
        by_cases hfv : r.func v = true
        · simp [checkRules, hk, hl, hfv]
        · simp [checkRules, hk, hl, hfv]

theorem checkUnknown_shape (s : Schema) (info : Info) :
    checkUnknown s info = .ok () ∨
      ∃ m, checkUnknown s info = .error (.apiError m) := by
  induction info with
  | nil => exact Or.inl rfl
  | cons p rest ih =>
      obtain ⟨k, v⟩ := p
      simp only [checkUnknown]
      split
      · exact ih
      · exact Or.inr ⟨_, rfl⟩

theorem checkRules_shape (info : Info) (s : Schema) :
    checkRules info s = .ok () ∨
      ∃ m, checkRules info s = .error (.apiError m) := by
  induction s with
  | nil => exact Or.inl rfl
  | cons p rest ih =>
      obtain ⟨k, r⟩ := p
      simp only [checkRules]
      split
      · exact Or.inr ⟨_, rfl⟩
      · split
        · split
          · exact Or.inr ⟨_, rfl⟩
          · exact ih
        · exact ih

/-- C1: For every schema S and attribute mapping A, the field validation
shared by `Feed._validate` and `Report._validate` succeeds if and only if
every key of A is a key of S, every required key of S is present in A, and
every present field satisfies its rule's predicate; otherwise it raises a
validation `ApiError`.  (`Feed._validate` additionally validates the
feed's child reports afterwards — the composite property of C4.) -/
theorem validateFields_ok_iff (s : Schema) (info : Info) :
    (validateFields s info = .ok () ↔
      ((∀ p ∈ info, Schema.hasKey s p.1 = true) ∧
       (∀ p ∈ s, p.2.required = true → Info.hasKey info p.1 = true) ∧
       (∀ p ∈ s, ∀ v, Info.lookup info p.1 = some v → p.2.func v = true))) ∧
    (validateFields s info ≠ .ok () →
      ∃ m, validateFields s info = .error (.apiError m)) := by
  constructor
  · unfold validateFields
    rcases checkUnknown_shape s info with h | ⟨m, h⟩
    · rw [h]
      rw [checkRules_ok_iff]
      rw [checkUnknown_ok_iff] at h
      constructor
      · intro hr
        exact ⟨h, fun p hp => (hr p hp).1, fun p hp => (hr p hp).2⟩
      · intro ⟨_, h2, h3⟩ p hp
        exact ⟨h2 p hp, h3 p hp⟩
    · rw [h]
      constructor
      · intro habs; exact absurd habs (by simp)
      · intro ⟨h1, _, _⟩
        have := (checkUnknown_ok_iff s info).mpr h1
        rw [this] at h
        exact absurd h (by simp)
  · intro hne
    unfold validateFields at hne ⊢
    rcases checkUnknown_shape s info with h | ⟨m, h⟩
    · rw [h] at hne ⊢
      rcases checkRules_shape info s with h2 | ⟨m2, h2⟩
      · exact absurd h2 hne
      · exact ⟨m2, h2⟩
    · rw [h]
      exact ⟨m, rfl⟩

/-- Witness for C1: a concrete attribute mapping satisfying the three
conditions validates successfully. -/
theorem validateFields_ok_iff_witness :
    validateFields (feedValidationMap (fun _ => true))
      [("name", .str "n"), ("owner", .str "o"), ("provider_url", .str "u"),
       ("summary", .str "s"), ("category", .str "c"), ("access", .str "public")]
      = .ok () := by
  apply (validateFields_ok_iff (feedValidationMap (fun _ => true)) _).1.mpr
  refine ⟨by decide, by decide, ?_⟩
  intro p hp v hv
  simp only [feedValidationMap, List.mem_cons, List.not_mem_nil, or_false] at hp
  rcases hp with rfl | rfl | rfl | rfl | rfl | rfl | rfl <;>
    simp [Info.lookup] at hv <;>
    (try subst hv) <;>
    simp [isStr, isAccess]

/-- Any attribute key missing from the schema makes the first loop fail
with the unexpected-field error of the first such key, before the schema
loop is reached. -/
theorem checkUnknown_fails (s : Schema) (info : Info)
    (h : ∃ p ∈ info, Schema.hasKey s p.1 = false) :
    ∃ k, checkUnknown s info = .error (.apiError ("unexpected field: " ++ k)) ∧
      Schema.hasKey s k = false := by
  induction info with
  | nil => simp at h
  | cons p rest ih =>
      obtain ⟨k0, v0⟩ := p
      by_cases hk : Schema.hasKey s k0 = true
      · simp only [checkUnknown, hk, if_true]
        apply ih
        obtain ⟨q, hq, hqf⟩ := h
        rcases List.mem_cons.mp hq with rfl | hq'
        · rw [hk] at hqf; cases hqf
        · exact ⟨q, hq', hqf⟩
      · have hk' : Schema.hasKey s k0 = false := by
          simpa using hk
        exact ⟨k0, by simp [checkUnknown, hk'], hk'⟩

/-- C2: when the attribute mapping has at least one key not in the schema
and the schema has at least one required key absent from the attributes,
validation always reports an unexpected-field error (for a key not in the
schema), never the missing-field error: the unknown-field loop over the
attributes completes before the required-field loop starts. -/
theorem unknown_field_reported_first (s : Schema) (info : Info)
    (hunk : ∃ p ∈ info, Schema.hasKey s p.1 = false)
    (_hmiss : ∃ p ∈ s, p.2.required = true ∧ Info.hasKey info p.1 = false) :
    ∃ k, validateFields s info = .error (.apiError ("unexpected field: " ++ k)) ∧
      Schema.hasKey s k = false := by
  obtain ⟨k, hk, hkf⟩ := checkUnknown_fails s info hunk
  exact ⟨k, by unfold validateFields; rw [hk], hkf⟩

/-- Witness for C2: one unknown field (`bogus`) plus the missing required
`name` field reports `unexpected field: bogus`. -/
theorem unknown_field_reported_first_witness :
    ∃ k, validateFields (feedValidationMap (fun _ => true)) [("bogus", .int 1)]
        = .error (.apiError ("unexpected field: " ++ k)) ∧
      Schema.hasKey (feedValidationMap (fun _ => true)) k = false :=
  unknown_field_reported_first (feedValidationMap (fun _ => true))
    [("bogus", .int 1)] (by decide) (by decide)

/-- C3 counterexample: schema entries `name` (required, string) and
`owner` (required, string) — the first two rules of `Feed.validation_map`
— with attributes `{"name": 42}`: no unknown field, the required `owner`
is absent, and the present `name` fails its predicate.  The claim predicts
the missing-field error for `owner`; the code reports `invalid field:
name`, because the schema loop interleaves the missing check and the
predicate check key by key. -/
theorem interleaved_checks_counterexample :
    validateFields
        [("name", { func := isStr }), ("owner", { func := isStr })]
        [("name", Value.int 42)]
      = .error (.apiError "invalid field: name") ∧
    (Except.error (PyErr.apiError "invalid field: name") : Except PyErr Unit)
      ≠ .error (.apiError "required field missing: owner") := by
  constructor
  · rfl
  · intro h
    injection h with h1
    injection h1 with h2
    exact absurd h2 (by decide)

/-- In the schema loop, an entry whose checks both pass contributes
nothing: validation proceeds to the remaining entries. -/
theorem checkRules_append_passes (info : Info) (s1 t : Schema)
    (hpass : ∀ p ∈ s1, (p.2.required = true → Info.hasKey info p.1 = true) ∧
        (∀ v, Info.lookup info p.1 = some v → p.2.func v = true)) :
    checkRules info (s1 ++ t) = checkRules info t := by
  induction s1 with
  | nil => rfl
  | cons p rest ih =>
      obtain ⟨k, r⟩ := p
      have hhead := hpass (k, r) (by simp)
      have hrest : ∀ p ∈ rest, (p.2.required = true → Info.hasKey info p.1 = true) ∧
          (∀ v, Info.lookup info p.1 = some v → p.2.func v = true) :=
        fun p hp => hpass p (List.mem_cons_of_mem _ hp)
      rcases hl : Info.lookup info k with _ | v
      · have hk : Info.hasKey info k = false := by
          rw [hasKey_eq_isSome, hl]; rfl
        have hr : r.required = false := by
          rcases hq : r.required with _ | _
          · rfl
          · rw [hhead.1 hq] at hk; cases hk
        simp [checkRules, hk, hr, hl, ih hrest]
      · have hk : Info.hasKey info k = true := by
          rw [hasKey_eq_isSome, hl]; rfl
        have hfv : r.func v = true := hhead.2 v hl
        simp [checkRules, hk, hl, hfv, ih hrest]

/-- C3 amended: the required-field and predicate checks are interleaved in
one pass over the schema in declaration order, so for an attribute mapping
with no unknown fields the reported error is that of the first offending
schema entry.  In particular the missing-field error is reported precisely
when the first offender is a missing required field — an earlier present
field failing its predicate is reported as the invalid-field error instead
(see the counterexample). -/
theorem missing_reported_iff_first_offender (s1 s2 : Schema) (k : String)
    (r : Rule) (info : Info)
    (hnounk : ∀ p ∈ info, Schema.hasKey (s1 ++ (k, r) :: s2) p.1 = true)
    (hpass : ∀ p ∈ s1, (p.2.required = true → Info.hasKey info p.1 = true) ∧
        (∀ v, Info.lookup info p.1 = some v → p.2.func v = true))
    (hmiss : Info.hasKey info k = false) (hreq : r.required = true) :
    validateFields (s1 ++ (k, r) :: s2) info
      = .error (.apiError ("required field missing: " ++ k)) := by
  unfold validateFields
  rw [(checkUnknown_ok_iff _ info).mpr hnounk]
  rw [checkRules_append_passes info s1 _ hpass]
  simp [checkRules, hmiss, hreq]

/-- Witness for the amended C3: with the passing `name` entry first, the
missing required `owner` entry is reported even though a later entry could
fail. -/
theorem missing_reported_iff_first_offender_witness :
    validateFields
        ([("name", { func := isStr })] ++ ("owner", { func := isStr }) ::
          [("access", { func := isAccess })])
        [("name", Value.str "n"), ("access", Value.int 3)]
      = .error (.apiError "required field missing: owner") := by
  refine missing_reported_iff_first_offender
    [("name", { func := isStr })] [("access", { func := isAccess })]
    "owner" { func := isStr } [("name", Value.str "n"), ("access", Value.int 3)]
    ?_ ?_ ?_ ?_
  · decide
  · intro p hp
    rw [List.mem_singleton] at hp
    subst hp
    refine ⟨fun _ => by decide, fun v hv => ?_⟩
    simp only [Info.lookup] at hv
    simp at hv
    subst hv
    rfl
  · decide
  · rfl

/-! ## Composite creation (Feed with child Reports) -/

/-- A report whose attributes satisfy `Report.validation_map`. -/
def sampleValidReport : Report :=
  ⟨some (.str "r1"),
   [("id", .str "r1"), ("timestamp", .int 1), ("title", .str "t"),
    ("description", .str "d"), ("severity", .int 5)]⟩

/-- A report missing the required `title` field. -/
def sampleInvalidReport : Report :=
  ⟨some (.str "r2"),
   [("id", .str "r2"), ("timestamp", .int 2),
    ("description", .str "d"), ("severity", .int 5)]⟩

/-- Feed attributes satisfying `Feed.validation_map` (with the abstract
url predicate instantiated to accept everything). -/
def sampleFeedInfo : Info :=
  [("name", .str "n"), ("owner", .str "o"), ("provider_url", .str "u"),
   ("summary", .str "s"), ("category", .str "c"), ("access", .str "public")]

/-- C4 counterexample: a feed with valid own attributes and children
`[valid, invalid, valid]` fails `create()` before any `post_object` call,
but the raised error is the invalid child's own `ApiError` with no index
attached: a feed whose identical invalid child sits at index 0 instead of
index 1 produces the very same error value, so the error cannot be a
`ChildValidationError` carrying the failing child's index. -/
theorem feed_create_error_carries_no_index :
    feedCreate (fun _ => true) (fun _ => [])
        ⟨some (.str "f1"), sampleFeedInfo,
         [sampleValidReport, sampleInvalidReport, sampleValidReport]⟩
      = (.error (.apiError "required field missing: title"), 0) ∧
    feedCreate (fun _ => true) (fun _ => [])
        ⟨some (.str "f1"), sampleFeedInfo,
         [sampleInvalidReport, sampleValidReport, sampleValidReport]⟩
      = (.error (.apiError "required field missing: title"), 0) :=
  ⟨rfl, rfl⟩

theorem validateReportList_append (urlPred : Value → Bool)
    (rs1 rs2 : List Report) (bad : Report) (e : PyErr)
    (hok : ∀ r ∈ rs1, reportValidate urlPred r = .ok ())
    (hbad : reportValidate urlPred bad = .error e) :
    validateReportList urlPred (rs1 ++ bad :: rs2) = .error e := by
  induction rs1 with
  | nil => simp [validateReportList, hbad]
  | cons r rest ih =>
      have hr := hok r (by simp)
      have hrest : ∀ r ∈ rest, reportValidate urlPred r = .ok () :=
        fun r hr => hok r (List.mem_cons_of_mem _ hr)
      simp [validateReportList, hr, ih hrest]

/-- C4 amended: `Feed._create` validates the feed's own attributes, then
each child report in order, short-circuiting at the first invalid child:
it fails with that child's own validation `ApiError` (which carries no
child index — see the counterexample) and issues zero `post_object`
network calls. -/
theorem feed_create_short_circuits (urlPred : Value → Bool)
    (post : FeedBody → Info) (f : Feed) (rs1 rs2 : List Report)
    (bad : Report) (e : PyErr)
    (hown : validateFields (feedValidationMap urlPred) f.info = .ok ())
    (hsplit : f.reports = rs1 ++ bad :: rs2)
    (hok : ∀ r ∈ rs1, reportValidate urlPred r = .ok ())
    (hbad : reportValidate urlPred bad = .error e) :
    feedCreate urlPred post f = (.error e, 0) := by
  unfold feedCreate feedValidate
  rw [hown, hsplit, validateReportList_append urlPred rs1 rs2 bad e hok hbad]

/-- Witness for the amended C4, at the children `[valid, invalid, valid]`
of the counterexample. -/
theorem feed_create_short_circuits_witness :
    feedCreate (fun _ => true) (fun _ => [])
        ⟨some (.str "f1"), sampleFeedInfo,
         [sampleValidReport, sampleInvalidReport, sampleValidReport]⟩
      = (.error (.apiError "required field missing: title"), 0) := by
  apply feed_create_short_circuits (fun _ => true) (fun _ => []) _
    [sampleValidReport] [sampleValidReport] sampleInvalidReport
  · rfl
  · rfl
  · intro r hr
    rw [List.mem_singleton] at hr
    subst hr
    rfl
  · rfl

/-! ## Construction: envelope detection and identity resolution -/

/-- C5 counterexample: the flat empty document `{}` has no `"feedinfo"`
key, yet constructing a Feed from it together with a (truthy)
`model_unique_id` does not yield attributes equal to the whole document:
`if initial_data:` is a Python truthiness test, the empty dict is falsy,
and control falls to the `elif model_unique_id:` fetch branch, whose
response supplies the attributes. -/
theorem feed_flat_empty_doc_counterexample :
    feedInit (fun _ => [("feedinfo", Value.dict [("id", Value.str "srv")])])
        (some (.str "f1")) (some [])
      = .ok ⟨some (.str "srv"), [("id", .str "srv")], []⟩ ∧
    ([("id", Value.str "srv")] : Info) ≠ ([] : Info) := by
  refine ⟨rfl, ?_⟩
  intro h
  cases h

/-- C5 amended: for every truthy initial document with a `"feedinfo"` key
(mapping to a dict) and a `"reports"` list whose elements all construct
(each a dict with an `"id"` key), the Feed's attributes equal the inner
`feedinfo` document and its children are the Reports built from the
report documents in order; for every NON-EMPTY flat document without a
`"feedinfo"` key, the attributes equal the whole document and there are no
children.  (The empty flat document instead falls through to the
identity-lookup branch — see the counterexample.) -/
theorem feed_envelope_detection :
    (∀ (g : Value → Info) (muid : Option Value) (doc D : Info)
        (Rs : List Value) (reps : List Report),
      Info.lookup doc "feedinfo" = some (.dict D) →
      Info.lookup doc "reports" = some (.list Rs) →
      buildReports Rs = .ok reps →
      feedInit g muid (some doc) = .ok ⟨Info.lookup D "id", D, reps⟩) ∧
    (∀ (g : Value → Info) (muid : Option Value) (doc : Info),
      doc ≠ [] →
      Info.hasKey doc "feedinfo" = false →
      feedInit g muid (some doc) = .ok ⟨Info.lookup doc "id", doc, []⟩) := by
  constructor
  · intro g muid doc D Rs reps hfi hrs hbuild
    have hne : doc ≠ [] := by
      intro h
      subst h
      simp [Info.lookup] at hfi
    have hemp : doc.isEmpty = false := by
      rcases doc with _ | _
      · exact absurd rfl hne
      · rfl
    simp [feedInit, optTruthy, Value.truthy, hemp, hfi, hrs, asDict, asList,
      hbuild, newBaseModelInit]
  · intro g muid doc hne hfk
    have hemp : doc.isEmpty = false := by
      rcases doc with _ | _
      · exact absurd rfl hne
      · rfl
    have hfi : Info.lookup doc "feedinfo" = Option.none := by
      rw [hasKey_eq_isSome] at hfk
      rcases h : Info.lookup doc "feedinfo" with _ | v
      · rfl
      · rw [h] at hfk; cases hfk
    simp [feedInit, optTruthy, Value.truthy, hemp, hfi, buildReports,
      newBaseModelInit]

/-- Witness for the amended C5: an enveloped document with one report, and
a non-empty flat document. -/
theorem feed_envelope_detection_witness :
    feedInit (fun _ => []) Option.none
        (some [("feedinfo", .dict [("id", .str "x"), ("name", .str "n")]),
               ("reports", .list [.dict [("id", .str "r1")]])])
      = .ok ⟨some (.str "x"), [("id", .str "x"), ("name", .str "n")],
             [⟨some (.str "r1"), [("id", .str "r1")]⟩]⟩ ∧
    feedInit (fun _ => []) Option.none (some [("id", .str "y")])
      = .ok ⟨some (.str "y"), [("id", .str "y")], []⟩ := by
  constructor
  · exact feed_envelope_detection.1 (fun _ => []) Option.none _
      [("id", .str "x"), ("name", .str "n")] [.dict [("id", .str "r1")]]
      [⟨some (.str "r1"), [("id", .str "r1")]⟩] rfl rfl rfl
  · exact feed_envelope_detection.2 (fun _ => []) Option.none
      [("id", .str "y")] (by intro h; cases h) (by decide)

/-- First unknown key: if some key of `kwargs` is absent from the
attribute mapping, the scan finds one (the first in iteration order). -/
theorem firstUnknownKey_finds (info : Info) (kwargs : Info)
    (h : ∃ p ∈ kwargs, Info.hasKey info p.1 = false) :
    ∃ k, firstUnknownKey info kwargs = some k ∧ Info.hasKey info k = false := by
  induction kwargs with
  | nil => simp at h
  | cons p rest ih =>
      obtain ⟨k0, v0⟩ := p
      by_cases hk : Info.hasKey info k0 = true
      · simp only [firstUnknownKey, hk, if_true]
        apply ih
        obtain ⟨q, hq, hqf⟩ := h
        rcases List.mem_cons.mp hq with rfl | hq'
        · rw [hk] at hqf; cases hqf
        · exact ⟨q, hq', hqf⟩
      · have hk' : Info.hasKey info k0 = false := by simpa using hk
        exact ⟨k0, by simp [firstUnknownKey, hk'], hk'⟩

/-- C6: on a feed with a (truthy) identity, `update` with a keyword
argument mapping containing at least one key absent from the attribute
mapping raises the unknown-update-field `ApiError`, performs zero
`put_object` network calls, and leaves the feed — in particular its
attribute mapping — completely unchanged. -/
theorem update_rejects_new_fields (put : Info → Info) (f : Feed)
    (kwargs : Info)
    (hid : optTruthy f.identity = true)
    (hunk : ∃ p ∈ kwargs, Info.hasKey f.info p.1 = false) :
    ∃ k, feedUpdate put f kwargs
        = (.error (.apiError ("can't update nonexistent field " ++ k)), f, 0) ∧
      Info.hasKey f.info k = false := by
  obtain ⟨k, hk, hkf⟩ := firstUnknownKey_finds f.info kwargs hunk
  refine ⟨k, ?_, hkf⟩
  unfold feedUpdate
  rw [hid]
  simp [hk]

/-- Witness for C6: `update({"newfield": 1})` on a feed lacking
`newfield`. -/
theorem update_rejects_new_fields_witness :
    ∃ k, feedUpdate (fun _ => []) ⟨some (.str "f1"), [("id", .str "f1")], []⟩
        [("newfield", .int 1)]
        = (.error (.apiError ("can't update nonexistent field " ++ k)),
           ⟨some (.str "f1"), [("id", .str "f1")], []⟩, 0) ∧
      Info.hasKey [("id", .str "f1")] k = false :=
  update_rejects_new_fields (fun _ => [])
    ⟨some (.str "f1"), [("id", .str "f1")], []⟩
    [("newfield", .int 1)] (by decide) ⟨("newfield", .int 1), by simp, by decide⟩

/-- C7 counterexample: a Feed constructed with BOTH an explicit
`model_unique_id` argument and initial data whose (flat, hence unwrapped)
document carries an `"id"` field gets the document's id as its identity:
`Feed.__init__` passes `model_unique_id=item.get("id", None)` to the base
constructor and discards the caller's argument, so the claimed precedence
(explicit argument first) does not hold. -/
theorem identity_precedence_counterexample :
    feedInit (fun _ => []) (some (.str "explicit")) (some [("id", .str "docid")])
      = .ok ⟨some (.str "docid"), [("id", .str "docid")], []⟩ ∧
    Value.str "docid" ≠ Value.str "explicit" := by
  refine ⟨rfl, ?_⟩
  intro h
  injection h with h1
  exact absurd h1 (by decide)

/-- C7 amended: when (truthy) initial data is supplied, the identity is
taken from the unwrapped document's `"id"` field — `Feed.__init__` passes
`item.get("id", None)` to the base constructor — and the explicit
`model_unique_id` argument is ignored entirely: constructing with any
other value of the argument yields the identical result.  The explicit
argument only selects the fetch branch when initial data is absent. -/
theorem feed_identity_ignores_argument (g : Value → Info)
    (muid1 muid2 : Option Value) (doc : Info) (f : Feed)
    (hne : doc ≠ [])
    (h : feedInit g muid1 (some doc) = .ok f) :
    f.identity = Info.lookup f.info "id" ∧
    feedInit g muid2 (some doc) = feedInit g muid1 (some doc) := by
  have hemp : doc.isEmpty = false := by
    rcases doc with _ | _
    · exact absurd rfl hne
    · rfl
  constructor
  · unfold feedInit at h
    simp only [Option.map, Option.getD, optTruthy, Value.truthy, hemp,
      Bool.not_false, if_true] at h
    rcases hfi : Info.lookup doc "feedinfo" with _ | fi
    · rw [hfi] at h
      simp only [buildReports, newBaseModelInit] at h
      cases h
      rfl
    · rw [hfi] at h
      cases fi <;> simp only [asDict] at h <;>
        try exact absurd h (by simp)
      rcases hrs : Info.lookup doc "reports" with _ | rv
      · rw [hrs] at h
        simp only [Option.getD, asList, buildReports, newBaseModelInit] at h
        cases h
        rfl
      · rw [hrs] at h
        cases rv <;> simp only [Option.getD, asList] at h <;>
          try exact absurd h (by simp)
        rename_i Rs
        rcases hb : buildReports Rs with e | reps
        · rw [hb] at h
          exact absurd h (by simp)
        · rw [hb] at h
          simp only [newBaseModelInit] at h
          cases h
          rfl
  · unfold feedInit
    simp only [Option.map, optTruthy, Value.truthy, hemp, Bool.not_false,
      if_true]

/-- Witness for the amended C7: the document id becomes the identity, and
swapping the explicit argument for `None` changes nothing. -/
theorem feed_identity_ignores_argument_witness :
    (⟨some (.str "docid"), [("id", .str "docid")], []⟩ : Feed).identity
        = Info.lookup [("id", .str "docid")] "id" ∧
    feedInit (fun _ => []) Option.none (some [("id", .str "docid")])
      = feedInit (fun _ => []) (some (.str "explicit"))
          (some [("id", .str "docid")]) :=
  feed_identity_ignores_argument (fun _ => []) (some (.str "explicit"))
    Option.none [("id", .str "docid")] _ (by intro h; cases h) rfl

/-! ## Report deletion, report construction, IOC construction -/

/-- C8: contrary to the claim, `Report.delete()` on a report with a
non-empty id does NOT fail with an error explaining the missing parent
feed identity: the deletion request is commented out in the source
(`TODO(ww): Problem: Report deletion requires the feed ID.`), so the
method returns silently, raising nothing and issuing zero network calls —
a silent no-op. -/
theorem report_delete_silent_noop :
    reportDelete ⟨some (.str "r1"), [("id", .str "r1")]⟩ = (.ok (), 0) := rfl

/-- Rule lookup in a `validation_map`. -/
def Schema.lookupRule (s : Schema) (k : String) : Option Rule :=
  match s with
  | [] => Option.none
  | (k', r) :: rest => if k' = k then some r else Schema.lookupRule rest k

/-- C9: `Report.__init__` evaluates `initial_data["id"]` unconditionally
(as an argument of the base-constructor call): a dict without an `"id"`
key raises `KeyError`, and an absent / `None` `initial_data` raises
`TypeError` — even though `Report.validation_map` declares the `id` field
as not required, so no Report pending server-side id assignment can be
constructed. -/
theorem report_init_requires_id_key :
    (∀ d : Info, Info.hasKey d "id" = false →
        reportInit (some (.dict d)) = .error (.keyError "id")) ∧
    reportInit Option.none
        = .error (.typeError "NoneType object is not subscriptable") ∧
    ∀ urlPred : Value → Bool,
      ∃ r, Schema.lookupRule (reportValidationMap urlPred) "id" = some r ∧
        r.required = false := by
  refine ⟨?_, rfl, ?_⟩
  · intro d hd
    have hl : Info.lookup d "id" = Option.none := by
      rw [hasKey_eq_isSome] at hd
      rcases h : Info.lookup d "id" with _ | v
      · rfl
      · rw [h] at hd; cases hd
    simp only [reportInit, hl]
  · intro urlPred
    exact ⟨_, rfl, rfl⟩

/-- Witness for C9: a report document with a title but no id. -/
theorem report_init_requires_id_key_witness :
    reportInit (some (.dict [("title", .str "t")])) = .error (.keyError "id") :=
  report_init_requires_id_key.1 [("title", .str "t")] (by decide)

/-- C10: both `IOC.__init__` and `IOC_v2.__init__` raise on every input —
`ApiError` when `initial_data` is falsy, and otherwise the `TypeError`
from `super(Report, self)` with a `self` that is no `Report` — so no IOC
or IOC_v2 instance is ever constructed; consequently, on any list free of
such instances, the `iocs` / `iocs_v2` predicates of
`Report.validation_map` accept exactly the empty list. -/
theorem ioc_constructors_always_raise :
    (∀ d, optTruthy d = false →
        iocInit d = .error (.apiError "IOC can only be initialized from initial_data") ∧
        iocV2Init d = .error (.apiError "IOC can only be initialized from initial_data")) ∧
    (∀ d, optTruthy d = true →
        iocInit d
          = .error (.typeError "super(type, obj): obj must be an instance or subtype of type") ∧
        iocV2Init d
          = .error (.typeError "super(type, obj): obj must be an instance or subtype of type")) ∧
    (∀ d x, iocInit d ≠ .ok x ∧ iocV2Init d ≠ .ok x) ∧
    (∀ l : List Value, (∀ x ∈ l, isIOCInst x = false) →
        (iocsFunc (.list l) = true ↔ l = [])) ∧
    (∀ l : List Value, (∀ x ∈ l, isIOCv2Inst x = false) →
        (iocsV2Func (.list l) = true ↔ l = [])) := by
  refine ⟨?_, ?_, ?_, ?_, ?_⟩
  · intro d hd
    constructor <;> simp [iocInit, iocV2Init, hd]
  · intro d hd
    constructor <;> simp [iocInit, iocV2Init, hd]
  · intro d x
    constructor <;> (rcases h : optTruthy d <;> simp [iocInit, iocV2Init, h])
  · intro l hl
    rcases l with _ | ⟨x, rest⟩
    · simp [iocsFunc]
    · simp only [iocsFunc, List.all_cons, Bool.and_eq_true]
      constructor
      · intro hx
        rw [hl x (by simp)] at hx
        cases hx.1
      · intro hx; cases hx
  · intro l hl
    rcases l with _ | ⟨x, rest⟩
    · simp [iocsV2Func]
    · simp only [iocsV2Func, List.all_cons, Bool.and_eq_true]
      constructor
      · intro hx
        rw [hl x (by simp)] at hx
        cases hx.1
      · intro hx; cases hx

/-- Witness for C10: a truthy and a falsy constructor input, and a
one-element IOC-free list rejected by the `iocs` predicate. -/
theorem ioc_constructors_always_raise_witness :
    iocInit (some (.dict [("x", .int 1)]))
        = .error (.typeError "super(type, obj): obj must be an instance or subtype of type") ∧
    iocInit Option.none
        = .error (.apiError "IOC can only be initialized from initial_data") ∧
    (iocsFunc (.list [.str "a"]) = true ↔ ([Value.str "a"] : List Value) = []) :=
  ⟨(ioc_constructors_always_raise.2.1 _ (by decide)).1,
   (ioc_constructors_always_raise.1 _ (by decide)).1,
   ioc_constructors_always_raise.2.2.2.1 [.str "a"] (by decide)⟩
